import Mathlib

/-!
Verification of the solar irradiance estimation and tilt-angle optimization
engine of the solar-app repository.

The JavaScript source (src/solar_formulas.js, src/main.js) is shallowly
embedded here.  JavaScript numbers are modelled by real numbers; the NaN
sentinel used by the code to signal "no data" is modelled by `Option ℝ`
(`none` = NaN or a non-numeric value, `some x` = the plain number `x`).
`Math.min(...list)` over a possibly empty list is modelled by a fold of
`min` over `WithTop ℝ` starting at `⊤` (JavaScript returns `Infinity` on
the empty list).  Fields keep the source's Spanish names.
-/

namespace SolarApp

open Real

noncomputable section

/-- Solar constant in W/m² (constant `ICS` of solar_formulas.js). -/
def ICS : ℝ := 1367

/-- Conversion factor degrees-per-radian (`RAD_A_DEG = 180 / PI`). -/
def RAD_A_DEG : ℝ := 180 / π

/-- Factor `24 / PI` used in the extraterrestrial irradiation formula. -/
def FACTOR_G0D : ℝ := 24 / π

/-- Beam transfer factor Rb (`calcularRb` of solar_formulas.js):
ratio of tilted-plane to horizontal beam irradiation; returns 0 when the
denominator is exactly 0. -/
def calcularRb (phi_rad delta_rad omega_s_rad beta_rad : ℝ) : ℝ :=
  let p := phi_rad
  let b := beta_rad
  let d := delta_rad
  let w := omega_s_rad
  let numerador := w * sin d * sin (p - b) + cos d * cos (p - b) * sin w
  let denominador := w * sin d * sin p + cos d * cos p * sin w
  if denominador = 0 then 0 else numerador / denominador

/-- One month's record as assembled by `ejecutarCalculos` in main.js:
horizontal global irradiation `Gd_kWh` (Option: `none` models the NaN
produced by a failed parseFloat of the data-source answer), extraterrestrial
irradiation `G0d_kWh`, diffuse `Dd` and direct `Id` horizontal components,
declination `delta`, sunset hour angle `omega_s`, and the day count
`diasEnMes` used as aggregation weight. -/
structure MonthItem where
  Gd_kWh : Option ℝ
  G0d_kWh : ℝ
  Dd : ℝ
  Id : ℝ
  delta : ℝ
  omega_s : ℝ
  diasEnMes : ℕ

/-- Result record of `calcularRadiacionInclinada`: the beam factor `Rb` is
always a plain number, while the three irradiation outputs carry the NaN
sentinel (`none`) when the input data is unusable. -/
structure ResultadoInclinada where
  Rb : ℝ
  Id_beta : Option ℝ
  Dd_beta : Option ℝ
  Gi : Option ℝ

/-- Tilted irradiation (`calcularRadiacionInclinada` of solar_formulas.js).
The guard mirrors `typeof Gd_kWh === 'number' && Gd_kWh > 0 && G0d_kWh > 0`;
when it fails, `Id_beta`, `Dd_beta` and `Gi` stay NaN (`none`) but `Rb`
keeps the value computed by `calcularRb`. -/
def calcularRadiacionInclinada (inclinacionRadianes : ℝ) (item : MonthItem)
    (latitudRadianes : ℝ) : ResultadoInclinada :=
  let Rb := calcularRb latitudRadianes item.delta item.omega_s inclinacionRadianes
  match item.Gd_kWh with
  | none => ⟨Rb, none, none, none⟩
  | some Gd =>
    if 0 < Gd ∧ 0 < item.G0d_kWh then
      let Id_beta0 := item.Id * Rb
      let Id_beta := if Id_beta0 < 0 then 0 else Id_beta0
      let Ai := item.Id / item.G0d_kWh
      let anisotropyIndex := max 0 (min 1 Ai)
      let Rd_term := 0.5 * (1 + cos inclinacionRadianes)
      let Dd_beta := item.Dd * anisotropyIndex * Rb
        + item.Dd * (1 - anisotropyIndex) * Rd_term
      let rho : ℝ := 0.2
      let Rr_term := 0.5 * (1 - cos inclinacionRadianes)
      let Rr := rho * Gd * Rr_term
      ⟨Rb, some Id_beta, some Dd_beta, some (Id_beta + Dd_beta + Rr)⟩
    else ⟨Rb, none, none, none⟩

/-- Solar declination in radians (`calcularDelta`, Cooper's Fourier series). -/
def calcularDelta (dn : ℝ) : ℝ :=
  let gamma := 2 * π * ((dn - 1) / 365)
  0.006918 - 0.399912 * cos gamma + 0.070257 * sin gamma
    - 0.006758 * cos (2 * gamma) + 0.000907 * sin (2 * gamma)
    - 0.002697 * cos (3 * gamma) + 0.00148 * sin (3 * gamma)

/-- Result record of `calcularG0d`. -/
structure ResultadoG0d where
  omega_s : ℝ
  E0 : ℝ
  G0d_kWh : ℝ

/-- Extraterrestrial daily irradiation and sunset hour angle (`calcularG0d`
of solar_formulas.js), with the polar-day (`operandoArccos < -1`) and
polar-night (`operandoArccos > 1`) branches. -/
def calcularG0d (latitudRadianes delta_rad dn : ℝ) : ResultadoG0d :=
  let E0 := 1 + 0.033 * cos ((2 * π * dn) / 365)
  let operandoArccos := -tan latitudRadianes * tan delta_rad
  if -1 ≤ operandoArccos ∧ operandoArccos ≤ 1 then
    let omega_s_rad := arccos operandoArccos
    let termino1 := omega_s_rad * sin delta_rad * sin latitudRadianes
    let termino2 := cos delta_rad * cos latitudRadianes * sin omega_s_rad
    ⟨omega_s_rad, E0, FACTOR_G0D * ICS * E0 * (termino1 + termino2) / 1000⟩
  else if operandoArccos < -1 then
    ⟨π, E0, FACTOR_G0D * ICS * E0 * (π * sin delta_rad * sin latitudRadianes) / 1000⟩
  else
    ⟨0, E0, 0⟩

/-- Result record of `calcularComponentesHorizontales`; all three outputs
carry the NaN sentinel together. -/
structure ComponentesHorizontales where
  Kd : Option ℝ
  Dd : Option ℝ
  Id : Option ℝ

/-- Horizontal decomposition (`calcularComponentesHorizontales` of
solar_formulas.js): clearness index `Kd` clamped to 1, Orgill–Hollands
style diffuse `Dd` floored at 0, direct `Id = Gd - Dd` floored at 0. -/
def calcularComponentesHorizontales (Gd_kWh : Option ℝ) (G0d_kWh : ℝ) :
    ComponentesHorizontales :=
  match Gd_kWh with
  | none => ⟨none, none, none⟩
  | some Gd =>
    if 0 < Gd ∧ 0 < G0d_kWh then
      let Kd0 := Gd / G0d_kWh
      let Kd := if 1 < Kd0 then 1 else Kd0
      let Dd0 := Gd * (1.39 - 4.027 * Kd + 5.531 * Kd ^ 2 - 3.108 * Kd ^ 3)
      let Dd := if Dd0 < 0 then 0 else Dd0
      let Id0 := Gd - Dd
      let Id := if Id0 < 0 then 0 else Id0
      ⟨some Kd, some Dd, some Id⟩
    else ⟨none, none, none⟩

/-- The candidate tilt angles scanned by `generarTablaAnualOptima` in
main.js (`for betaGrados = 0; betaGrados <= 90; betaGrados += 5`). -/
def angulosCandidatos : List ℕ :=
  [0, 5, 10, 15, 20, 25, 30, 35, 40, 45, 50, 55, 60, 65, 70, 75, 80, 85, 90]

/-- One step of the annual accumulation in `generarTablaAnualOptima`:
months whose `Gi` is NaN are skipped, valid ones contribute
`Gi * diasEnMes`. -/
def aporteMes (lat betaRad : ℝ) (acc : ℝ) (item : MonthItem) : ℝ :=
  match (calcularRadiacionInclinada betaRad item lat).Gi with
  | some gi => acc + gi * (item.diasEnMes : ℝ)
  | none => acc

/-- Annual yield at a candidate angle in MWh (`GiAnualMWh` of main.js):
weighted sum over the valid months divided by 1000. -/
def GiAnualMWh (lat : ℝ) (months : List MonthItem) (betaGrados : ℕ) : ℝ :=
  (months.foldl (aporteMes lat ((betaGrados : ℝ) / RAD_A_DEG)) 0) / 1000

/-- The per-month `Gi` values collected at a candidate angle
(`GiMensuales` of main.js; NaN months are not pushed). -/
def GiMensualesAt (lat : ℝ) (months : List MonthItem) (betaGrados : ℕ) : List ℝ :=
  months.filterMap fun item =>
    (calcularRadiacionInclinada ((betaGrados : ℝ) / RAD_A_DEG) item lat).Gi

/-- `Math.min(...GiMensuales)`: minimum over the collected `Gi` values,
`⊤` (JavaScript `Infinity`) when the collection is empty. -/
def GiMinAt (lat : ℝ) (months : List MonthItem) (betaGrados : ℕ) : WithTop ℝ :=
  (GiMensualesAt lat months betaGrados).foldr (fun x m => min (x : WithTop ℝ) m) ⊤

/-- One step of the optimum-tracking loop of `generarTablaAnualOptima`:
the running best is replaced only on strict improvement
(`if (GiAnualMWh > maxGiAnual)`). -/
def pasoSeleccion (f : ℕ → ℝ) (st : ℝ × Option ℕ) (beta : ℕ) : ℝ × Option ℕ :=
  if f beta > st.1 then (f beta, some beta) else st

/-- The candidate scan of `generarTablaAnualOptima`, started from
`maxGiAnual = -1`, `anguloOptimo = null`. -/
def seleccionOptimo (f : ℕ → ℝ) : ℝ × Option ℕ :=
  angulosCandidatos.foldl (pasoSeleccion f) (-1, none)

/-- What `generarTablaAnualOptima` returns: the optimal angle (or `null`)
and the minimum monthly `Gi` at that angle. -/
structure ResultadoOptimo where
  anguloOptimo : Option ℕ
  GiMinMensual : WithTop ℝ

/-- The annual tilt search of main.js (`generarTablaAnualOptima`).  The
global `resultadosMensualesGlobales` list is passed explicitly.  The
empty-list guard returns `⟨null, 0⟩`; otherwise the scan runs and, when an
optimum was recorded, its row's minimum monthly `Gi` is looked up (the
initial `GiMinMensual = Infinity` survives only when no angle was ever
recorded). -/
def generarTablaAnualOptima (lat : ℝ) (months : List MonthItem) : ResultadoOptimo :=
  match months with
  | [] => ⟨none, ((0 : ℝ) : WithTop ℝ)⟩
  | _ :: _ =>
    match (seleccionOptimo (GiAnualMWh lat months)).2 with
    | some beta => ⟨some beta, GiMinAt lat months beta⟩
    | none => ⟨none, ⊤⟩

/-- Concrete list of eight valid month samples (used as test input). -/
def mesesOcho : List MonthItem :=
  List.replicate 8 ⟨some 5, 6, 2, 3, 0, π / 2, 30⟩

/-- Concrete one-month list whose extraterrestrial irradiation is 0
(used as test input). -/
def mesesG0dCero : List MonthItem :=
  [⟨some 2, 0, 5, 5, 0, 1, 31⟩]

/-- Concrete month item with an invalid (negative) horizontal irradiation
but perfectly numeric geometry (used as test input). -/
def itemGdInvalido : MonthItem :=
  ⟨some (-1), 1, 0, 0, 0, π / 2, 31⟩

/-- Concrete valid month item (used as test input). -/
def itemValido : MonthItem :=
  ⟨some 1, 1, 1 / 4, 1 / 2, 0, π / 2, 31⟩

/-! ### Helper lemmas -/

/-- The guarded branch of the horizontal splitter, in explicit form. -/
lemma componentes_eq (Gd G0d : ℝ) (hg : 0 < Gd) (he : 0 < G0d) :
    calcularComponentesHorizontales (some Gd) G0d =
      ⟨some (if 1 < Gd / G0d then 1 else Gd / G0d),
       some (if Gd * (1.39 - 4.027 * (if 1 < Gd / G0d then 1 else Gd / G0d)
              + 5.531 * (if 1 < Gd / G0d then 1 else Gd / G0d) ^ 2
              - 3.108 * (if 1 < Gd / G0d then 1 else Gd / G0d) ^ 3) < 0 then 0
             else Gd * (1.39 - 4.027 * (if 1 < Gd / G0d then 1 else Gd / G0d)
              + 5.531 * (if 1 < Gd / G0d then 1 else Gd / G0d) ^ 2
              - 3.108 * (if 1 < Gd / G0d then 1 else Gd / G0d) ^ 3)),
       some (if Gd - (if Gd * (1.39 - 4.027 * (if 1 < Gd / G0d then 1 else Gd / G0d)
              + 5.531 * (if 1 < Gd / G0d then 1 else Gd / G0d) ^ 2
              - 3.108 * (if 1 < Gd / G0d then 1 else Gd / G0d) ^ 3) < 0 then 0
             else Gd * (1.39 - 4.027 * (if 1 < Gd / G0d then 1 else Gd / G0d)
              + 5.531 * (if 1 < Gd / G0d then 1 else Gd / G0d) ^ 2
              - 3.108 * (if 1 < Gd / G0d then 1 else Gd / G0d) ^ 3)) < 0 then 0
             else Gd - (if Gd * (1.39 - 4.027 * (if 1 < Gd / G0d then 1 else Gd / G0d)
              + 5.531 * (if 1 < Gd / G0d then 1 else Gd / G0d) ^ 2
              - 3.108 * (if 1 < Gd / G0d then 1 else Gd / G0d) ^ 3) < 0 then 0
             else Gd * (1.39 - 4.027 * (if 1 < Gd / G0d then 1 else Gd / G0d)
              + 5.531 * (if 1 < Gd / G0d then 1 else Gd / G0d) ^ 2
              - 3.108 * (if 1 < Gd / G0d then 1 else Gd / G0d) ^ 3)))⟩ := by
  simp only [calcularComponentesHorizontales]
  rw [if_pos ⟨hg, he⟩]

/-- Exhaustive description of the optimum-tracking fold: either no
candidate ever beat the initial maximum and the state is unchanged, or the
list splits around the recorded candidate `b`, every candidate before `b`
is strictly below `f b` and every one after is at most `f b` (ties never
replace the record because the comparison is strict). -/
lemma seleccion_spec (f : ℕ → ℝ) :
    ∀ (L : List ℕ) (m : ℝ) (a : Option ℕ),
      (L.foldl (pasoSeleccion f) (m, a) = (m, a) ∧ ∀ beta ∈ L, f beta ≤ m) ∨
      (∃ L1 b L2, L = L1 ++ b :: L2 ∧
        L.foldl (pasoSeleccion f) (m, a) = (f b, some b) ∧ m < f b ∧
        (∀ beta ∈ L1, f beta < f b) ∧ (∀ beta ∈ L2, f beta ≤ f b)) := by
  intro L
  induction L with
  | nil => intro m a; exact Or.inl ⟨rfl, by simp⟩
  | cons b0 rest ih =>
    intro m a
    rw [List.foldl_cons]
    by_cases h : f b0 > m
    · have hstep : pasoSeleccion f (m, a) b0 = (f b0, some b0) := by
        simp [pasoSeleccion, h]
      rw [hstep]
      rcases ih (f b0) (some b0) with ⟨heq, hle⟩ |
        ⟨L1, b, L2, hsplit, heq, hlt, hL1, hL2⟩
      · exact Or.inr ⟨[], b0, rest, by simp, heq, h, by simp, hle⟩
      · refine Or.inr ⟨b0 :: L1, b, L2, by rw [hsplit]; rfl, heq,
          lt_trans h hlt, ?_, hL2⟩
        intro beta hbeta
        rcases List.mem_cons.mp hbeta with hb | hb
        · subst hb; exact hlt
        · exact hL1 beta hb
    · have hstep : pasoSeleccion f (m, a) b0 = (m, a) := by
        simp [pasoSeleccion, h]
      rw [hstep]
      rcases ih m a with ⟨heq, hle⟩ | ⟨L1, b, L2, hsplit, heq, hlt, hL1, hL2⟩
      · refine Or.inl ⟨heq, ?_⟩
        intro beta hbeta
        rcases List.mem_cons.mp hbeta with hb | hb
        · subst hb; exact not_lt.mp h
        · exact hle beta hb
      · refine Or.inr ⟨b0 :: L1, b, L2, by rw [hsplit]; rfl, heq, hlt, ?_, hL2⟩
        intro beta hbeta
        rcases List.mem_cons.mp hbeta with hb | hb
        · subst hb; exact lt_of_le_of_lt (not_lt.mp h) hlt
        · exact hL1 beta hb

/-- At tilt 0 the beam factor is 0 (degenerate denominator) or 1, hence
non-negative. -/
lemma rb_beta_zero_nonneg (lat delta omega : ℝ) :
    0 ≤ calcularRb lat delta omega 0 := by
  simp only [calcularRb, sub_zero]
  split_ifs with h
  · exact le_refl 0
  · rw [div_self h]
    norm_num

/-- At tilt 0 every non-NaN monthly `Gi` is non-negative, granted the
pipeline invariant that a month with positive extraterrestrial irradiation
carries a non-negative diffuse component. -/
lemma gi_beta_zero_nonneg (lat : ℝ) (item : MonthItem)
    (hDd : 0 < item.G0d_kWh → 0 ≤ item.Dd) (gi : ℝ)
    (hgi : (calcularRadiacionInclinada 0 item lat).Gi = some gi) : 0 ≤ gi := by
  rcases hGd : item.Gd_kWh with _ | g
  · simp only [calcularRadiacionInclinada, hGd] at hgi
    exact absurd hgi (by simp)
  · simp only [calcularRadiacionInclinada, hGd] at hgi
    by_cases hguard : 0 < g ∧ 0 < item.G0d_kWh
    · rw [if_pos hguard] at hgi
      simp only [Real.cos_zero, Option.some_inj] at hgi
      rw [← hgi]
      have hRb : 0 ≤ calcularRb lat item.delta item.omega_s 0 :=
        rb_beta_zero_nonneg lat item.delta item.omega_s
      have ha0 : 0 ≤ max 0 (min 1 (item.Id / item.G0d_kWh)) := le_max_left _ _
      have ha1 : max 0 (min 1 (item.Id / item.G0d_kWh)) ≤ 1 :=
        max_le (by norm_num) (min_le_left _ _)
      have hDd2 := hDd hguard.2
      have hIdb : 0 ≤ (if item.Id * calcularRb lat item.delta item.omega_s 0 < 0
          then (0 : ℝ) else item.Id * calcularRb lat item.delta item.omega_s 0) := by
        split_ifs with hneg
        · exact le_refl 0
        · exact not_lt.mp hneg
      have h1 : 0 ≤ item.Dd * max 0 (min 1 (item.Id / item.G0d_kWh))
          * calcularRb lat item.delta item.omega_s 0 :=
        mul_nonneg (mul_nonneg hDd2 ha0) hRb
      have h2 : 0 ≤ item.Dd * (1 - max 0 (min 1 (item.Id / item.G0d_kWh)))
          * (0.5 * (1 + 1)) :=
        mul_nonneg (mul_nonneg hDd2 (by linarith)) (by norm_num)
      nlinarith [hIdb, h1, h2]
    · rw [if_neg hguard] at hgi
      exact absurd hgi (by simp)

/-- Folding the annual accumulation from a non-negative start at tilt 0
stays non-negative. -/
lemma foldl_aporte_nonneg (lat : ℝ) :
    ∀ (l : List MonthItem), (∀ it ∈ l, 0 < it.G0d_kWh → 0 ≤ it.Dd) →
      ∀ acc : ℝ, 0 ≤ acc → 0 ≤ l.foldl (aporteMes lat 0) acc := by
  intro l
  induction l with
  | nil => intro _ acc hacc; simpa using hacc
  | cons it rest ih =>
    intro hl acc hacc
    rw [List.foldl_cons]
    refine ih (fun x hx => hl x (List.mem_cons_of_mem _ hx)) _ ?_
    rcases hgi : (calcularRadiacionInclinada 0 it lat).Gi with _ | gi
    · simpa [aporteMes, hgi] using hacc
    · simp only [aporteMes, hgi]
      have := gi_beta_zero_nonneg lat it (hl it (List.mem_cons_self it rest)) gi hgi
      have hd : (0 : ℝ) ≤ (it.diasEnMes : ℝ) := Nat.cast_nonneg _
      nlinarith

/-- The annual yield of the first candidate (0°) is non-negative under the
pipeline invariant. -/
lemma giAnual_zero_nonneg (lat : ℝ) (months : List MonthItem)
    (hDd : ∀ it ∈ months, 0 < it.G0d_kWh → 0 ≤ it.Dd) :
    0 ≤ GiAnualMWh lat months 0 := by
  have hzero : ((0 : ℕ) : ℝ) / RAD_A_DEG = 0 := by norm_num
  rw [GiAnualMWh, hzero]
  exact div_nonneg (foldl_aporte_nonneg lat months hDd 0 (le_refl 0)) (by norm_num)

/-- The annual accumulation as a weighted sum (NaN months count 0). -/
lemma foldl_aporte_eq_sum (lat betaRad : ℝ) :
    ∀ (l : List MonthItem) (acc : ℝ),
      l.foldl (aporteMes lat betaRad) acc
        = acc + (l.map fun it =>
            ((calcularRadiacionInclinada betaRad it lat).Gi.getD 0)
              * (it.diasEnMes : ℝ)).sum := by
  intro l
  induction l with
  | nil => intro acc; simp
  | cons it rest ih =>
    intro acc
    rw [List.foldl_cons, List.map_cons, List.sum_cons, ih]
    rcases hgi : (calcularRadiacionInclinada betaRad it lat).Gi with _ | gi
    · simp only [aporteMes, hgi, Option.getD_none]
      ring
    · simp only [aporteMes, hgi, Option.getD_some]
      ring

/-- Under the pipeline invariant and a non-empty month list, the tilt scan
always records an optimum, and that optimum is a first-strict-maximum of
the annual yield over the candidate angles. -/
lemma optimo_spec (lat : ℝ) (months : List MonthItem) (hne : months ≠ [])
    (hDd : ∀ it ∈ months, 0 < it.G0d_kWh → 0 ≤ it.Dd) :
    ∃ b, (generarTablaAnualOptima lat months).anguloOptimo = some b ∧
      (generarTablaAnualOptima lat months).GiMinMensual = GiMinAt lat months b ∧
      b ∈ angulosCandidatos ∧
      (∀ beta ∈ angulosCandidatos,
        GiAnualMWh lat months beta ≤ GiAnualMWh lat months b) ∧
      (∀ beta ∈ angulosCandidatos, beta < b →
        GiAnualMWh lat months beta < GiAnualMWh lat months b) := by
  obtain ⟨m0, rest, rfl⟩ := List.exists_cons_of_ne_nil hne
  rcases seleccion_spec (GiAnualMWh lat (m0 :: rest)) angulosCandidatos (-1) none with
    ⟨_, hle⟩ | ⟨L1, b, L2, hsplit, heq, _, hL1, hL2⟩
  · exfalso
    have h0 : GiAnualMWh lat (m0 :: rest) 0 ≤ -1 :=
      hle 0 (by simp [angulosCandidatos])
    have := giAnual_zero_nonneg lat (m0 :: rest) hDd
    linarith
  · have hsel : (seleccionOptimo (GiAnualMWh lat (m0 :: rest))).2 = some b := by
      rw [seleccionOptimo, heq]
    refine ⟨b, ?_, ?_, ?_, ?_, ?_⟩
    · simp only [generarTablaAnualOptima, hsel]
    · simp only [generarTablaAnualOptima, hsel]
    · rw [hsplit]
      exact List.mem_append_right _ (List.mem_cons_self _ _)
    · intro beta hbeta
      rw [hsplit] at hbeta
      rcases List.mem_append.mp hbeta with hmem | hmem
      · exact (hL1 beta hmem).le
      · rcases List.mem_cons.mp hmem with hb | hb
        · subst hb; exact le_refl _
        · exact hL2 beta hb
    · intro beta hbeta hblt
      rw [hsplit] at hbeta
      rcases List.mem_append.mp hbeta with hmem | hmem
      · exact hL1 beta hmem
      · rcases List.mem_cons.mp hmem with hb | hb
        · subst hb; exact absurd hblt (lt_irrefl beta)
        · exfalso
          have hpair : List.Pairwise (· < ·) angulosCandidatos := by decide
          rw [hsplit] at hpair
          have hbb := (List.pairwise_cons.mp (List.pairwise_append.mp hpair).2.1).1
          exact absurd hblt (not_lt.mpr (hbb beta hb).le)

/-- Month whose extraterrestrial irradiation is not positive always yields
a NaN `Gi`. -/
lemma gi_none_of_g0d_nonpos (betaRad lat : ℝ) (item : MonthItem)
    (h : ¬ 0 < item.G0d_kWh) :
    (calcularRadiacionInclinada betaRad item lat).Gi = none := by
  rcases hGd : item.Gd_kWh with _ | g
  · simp [calcularRadiacionInclinada, hGd]
  · simp only [calcularRadiacionInclinada, hGd]
    rw [if_neg (fun hc => h hc.2)]

/-- When every month's `Gi` is NaN at an angle, the annual accumulation is
the unchanged accumulator. -/
lemma foldl_aporte_none (lat betaRad : ℝ) :
    ∀ (l : List MonthItem),
      (∀ it ∈ l, (calcularRadiacionInclinada betaRad it lat).Gi = none) →
      ∀ acc : ℝ, l.foldl (aporteMes lat betaRad) acc = acc := by
  intro l
  induction l with
  | nil => intro _ acc; rfl
  | cons it rest ih =>
    intro hl acc
    rw [List.foldl_cons]
    have hstep : aporteMes lat betaRad acc it = acc := by
      simp only [aporteMes, hl it (List.mem_cons_self it rest)]
    rw [hstep]
    exact ih (fun x hx => hl x (List.mem_cons_of_mem _ hx)) acc

/-! ### Claim theorems -/

/-- C7: the beam transfer factor function is total; when the denominator
`w·sin δ·sin φ + cos δ·cos φ·sin w` is exactly 0, `calcularRb` returns 0
instead of dividing, so no division-by-zero error value is produced. -/
theorem claim7_rb_zero_denominator (phi_rad delta_rad omega_s_rad beta_rad : ℝ)
    (h : omega_s_rad * sin delta_rad * sin phi_rad
        + cos delta_rad * cos phi_rad * sin omega_s_rad = 0) :
    calcularRb phi_rad delta_rad omega_s_rad beta_rad = 0 := by
  simp only [calcularRb]
  rw [if_pos h]

/-- Witness for C7 at `φ = δ = ω = 0`, `β = 1`, where the denominator is 0. -/
theorem claim7_rb_zero_denominator_witness :
    (0 : ℝ) * sin 0 * sin 0 + cos 0 * cos 0 * sin 0 = 0 ∧
    calcularRb 0 0 0 1 = 0 := by
  have h : (0 : ℝ) * sin 0 * sin 0 + cos 0 * cos 0 * sin 0 = 0 := by simp
  exact ⟨h, claim7_rb_zero_denominator 0 0 0 1 h⟩

/-- C8: for strictly positive inputs the clearness index returned by the
horizontal splitter equals `min 1 (global/extraterrestrial)` and lies in
`[0, 1]`. -/
theorem claim8_clearness_index (Gd G0d : ℝ) (hg : 0 < Gd) (he : 0 < G0d) :
    (calcularComponentesHorizontales (some Gd) G0d).Kd = some (min 1 (Gd / G0d)) ∧
    0 ≤ min 1 (Gd / G0d) ∧ min 1 (Gd / G0d) ≤ 1 := by
  refine ⟨?_, le_min (by norm_num) (le_of_lt (div_pos hg he)), min_le_left _ _⟩
  rw [componentes_eq Gd G0d hg he]
  by_cases h : 1 < Gd / G0d
  · simp only [if_pos h]
    rw [min_eq_left h.le]
  · simp only [if_neg h]
    rw [min_eq_right (not_lt.mp h)]

/-- Witness for C8 at `Gd = 1`, `G0d = 2`. -/
theorem claim8_clearness_index_witness :
    (calcularComponentesHorizontales (some 1) 2).Kd = some (min 1 ((1 : ℝ) / 2)) ∧
    0 ≤ min 1 ((1 : ℝ) / 2) ∧ min 1 ((1 : ℝ) / 2) ≤ 1 :=
  claim8_clearness_index 1 2 (by norm_num) (by norm_num)

/-- C3 fails as stated: at `Gd = 1`, `G0d = 1000` the clearness index is
tiny, the diffuse polynomial exceeds 1, the direct component is floored to
0, and `Id + Dd = 1.385978527892 ≠ 1 = Gd`; the decomposition does not sum
to the global input. -/
theorem claim3_sum_counterexample :
    (calcularComponentesHorizontales (some 1) 1000).Id = some 0 ∧
    (calcularComponentesHorizontales (some 1) 1000).Dd
      = some ((1385978527892 : ℝ) / 10 ^ 12) ∧
    (0 : ℝ) + (1385978527892 : ℝ) / 10 ^ 12 ≠ 1 := by
  rw [componentes_eq 1 1000 (by norm_num) (by norm_num)]
  norm_num

/-- C3 amended: both components are non-negative and their sum is at least
`Gd`, with equality exactly when the computed diffuse does not exceed the
global (the `Id < 0` floor otherwise breaks the exact decomposition). -/
theorem claim3_sum_amended (Gd G0d : ℝ) (hg : 0 < Gd) (he : 0 < G0d) :
    ∃ dd dir, (calcularComponentesHorizontales (some Gd) G0d).Dd = some dd ∧
      (calcularComponentesHorizontales (some Gd) G0d).Id = some dir ∧
      0 ≤ dd ∧ 0 ≤ dir ∧ Gd ≤ dir + dd ∧ (dd ≤ Gd → dir + dd = Gd) := by
  rw [componentes_eq Gd G0d hg he]
  set k := if 1 < Gd / G0d then (1 : ℝ) else Gd / G0d with hk
  set p := Gd * (1.39 - 4.027 * k + 5.531 * k ^ 2 - 3.108 * k ^ 3) with hp
  by_cases hD : p < 0
  · refine ⟨0, Gd, ?_, ?_, le_refl 0, hg.le, by linarith, fun _ => by ring⟩
    · simp [if_pos hD]
    · simp only [if_pos hD, sub_zero]
      rw [if_neg (not_lt.mpr hg.le)]
  · by_cases hI : Gd - p < 0
    · refine ⟨p, 0, ?_, ?_, not_lt.mp hD, le_refl 0, by linarith, fun hple => by linarith⟩
      · simp [if_neg hD]
      · simp only [if_neg hD]
        rw [if_pos hI]
    · refine ⟨p, Gd - p, ?_, ?_, not_lt.mp hD, not_lt.mp hI, by linarith, fun _ => by ring⟩
      · simp [if_neg hD]
      · simp only [if_neg hD]
        rw [if_neg hI]

/-- Witness for the amended C3 at `Gd = 1`, `G0d = 2`. -/
theorem claim3_sum_amended_witness :
    ∃ dd dir, (calcularComponentesHorizontales (some 1) 2).Dd = some dd ∧
      (calcularComponentesHorizontales (some 1) 2).Id = some dir ∧
      0 ≤ dd ∧ 0 ≤ dir ∧ (1 : ℝ) ≤ dir + dd ∧ (dd ≤ 1 → dir + dd = 1) :=
  claim3_sum_amended 1 2 (by norm_num) (by norm_num)

/-- C4 fails as stated: with an invalid global irradiation (`Gd = -1`) but
numeric geometry, the tilted calculator returns the NaN sentinel for `Gi`
yet `Rb` is the plain number 1, not NaN. -/
theorem claim4_rb_counterexample :
    (calcularRadiacionInclinada 0 itemGdInvalido 0).Gi = none ∧
    (calcularRadiacionInclinada 0 itemGdInvalido 0).Rb = 1 := by
  constructor
  · simp only [calcularRadiacionInclinada, itemGdInvalido]
    norm_num
  · simp only [calcularRadiacionInclinada, itemGdInvalido, calcularRb, sub_zero,
      Real.sin_zero, Real.cos_zero, Real.sin_pi_div_two]
    norm_num

/-- C4 amended: when the global horizontal input is missing/NaN or not
strictly positive, or the extraterrestrial input is not strictly positive,
the direct, diffuse and global tilted outputs are all NaN, but the beam
transfer factor `Rb` is still the numeric value computed by `calcularRb`. -/
theorem claim4_nan_amended (beta lat : ℝ) (item : MonthItem)
    (h : ∀ g, item.Gd_kWh = some g → ¬(0 < g ∧ 0 < item.G0d_kWh)) :
    (calcularRadiacionInclinada beta item lat).Gi = none ∧
    (calcularRadiacionInclinada beta item lat).Id_beta = none ∧
    (calcularRadiacionInclinada beta item lat).Dd_beta = none ∧
    (calcularRadiacionInclinada beta item lat).Rb
      = calcularRb lat item.delta item.omega_s beta := by
  cases hGd : item.Gd_kWh with
  | none => simp [calcularRadiacionInclinada, hGd]
  | some g =>
    simp only [calcularRadiacionInclinada, hGd]
    rw [if_neg (h g hGd)]
    exact ⟨rfl, rfl, rfl, rfl⟩

/-- Witness for the amended C4 at the invalid item. -/
theorem claim4_nan_amended_witness :
    (calcularRadiacionInclinada 0 itemGdInvalido 0).Gi = none ∧
    (calcularRadiacionInclinada 0 itemGdInvalido 0).Id_beta = none ∧
    (calcularRadiacionInclinada 0 itemGdInvalido 0).Dd_beta = none ∧
    (calcularRadiacionInclinada 0 itemGdInvalido 0).Rb
      = calcularRb 0 itemGdInvalido.delta itemGdInvalido.omega_s 0 := by
  refine claim4_nan_amended 0 0 itemGdInvalido ?_
  intro g hg
  simp only [itemGdInvalido] at hg
  rw [Option.some_inj] at hg
  intro hcon
  rw [← hg] at hcon
  norm_num at hcon

/-- C9: for a valid month with non-degenerate geometry, tilt 0 is the
identity: `Rb = 1`, the ground-reflected term vanishes, the tilted direct
and diffuse equal the horizontal ones, and `Gi = Id + Dd`. -/
theorem claim9_tilt_zero_identity (item : MonthItem) (lat g : ℝ)
    (hGd : item.Gd_kWh = some g) (hg : 0 < g) (hG0d : 0 < item.G0d_kWh)
    (hId : 0 ≤ item.Id)
    (hden : item.omega_s * sin item.delta * sin lat
        + cos item.delta * cos lat * sin item.omega_s ≠ 0) :
    (calcularRadiacionInclinada 0 item lat).Rb = 1 ∧
    (calcularRadiacionInclinada 0 item lat).Id_beta = some item.Id ∧
    (calcularRadiacionInclinada 0 item lat).Dd_beta = some item.Dd ∧
    (calcularRadiacionInclinada 0 item lat).Gi = some (item.Id + item.Dd) := by
  have hRb : calcularRb lat item.delta item.omega_s 0 = 1 := by
    simp only [calcularRb, sub_zero]
    rw [if_neg hden, div_self hden]
  simp only [calcularRadiacionInclinada, hGd]
  rw [if_pos ⟨hg, hG0d⟩]
  simp only [hRb, mul_one, Real.cos_zero]
  rw [if_neg (not_lt.mpr hId)]
  refine ⟨trivial, rfl, ?_, ?_⟩
  · rw [Option.some_inj]
    ring
  · rw [Option.some_inj]
    ring

/-- Witness for C9 at a concrete valid month with latitude 0. -/
theorem claim9_tilt_zero_identity_witness :
    (calcularRadiacionInclinada 0 itemValido 0).Rb = 1 ∧
    (calcularRadiacionInclinada 0 itemValido 0).Id_beta = some itemValido.Id ∧
    (calcularRadiacionInclinada 0 itemValido 0).Dd_beta = some itemValido.Dd ∧
    (calcularRadiacionInclinada 0 itemValido 0).Gi
      = some (itemValido.Id + itemValido.Dd) := by
  refine claim9_tilt_zero_identity itemValido 0 1 rfl (by norm_num) ?_ ?_ ?_
  · norm_num [itemValido]
  · norm_num [itemValido]
  · simp only [itemValido, Real.sin_zero, Real.cos_zero, Real.sin_pi_div_two]
    norm_num

/-- C5: branch analysis of `calcularG0d`.  With `arccosArg = -tan φ·tan δ`:
inside `[-1, 1]` the sunset hour angle is `acos(arccosArg)`; below `-1`
(polar day) it is `π` and the irradiation keeps only the
`sin δ·sin φ` term times `π`; above `1` (polar night) it is `0` with zero
irradiation; in all cases the angle lies in `[0, π]` (never NaN). -/
theorem claim5_g0d_branches (lat delta dn : ℝ) :
    (-1 ≤ -tan lat * tan delta → -tan lat * tan delta ≤ 1 →
      (calcularG0d lat delta dn).omega_s = arccos (-tan lat * tan delta)) ∧
    (-tan lat * tan delta < -1 →
      (calcularG0d lat delta dn).omega_s = π ∧
      (calcularG0d lat delta dn).G0d_kWh
        = FACTOR_G0D * ICS * (calcularG0d lat delta dn).E0
            * (π * sin delta * sin lat) / 1000) ∧
    (1 < -tan lat * tan delta →
      (calcularG0d lat delta dn).omega_s = 0 ∧
      (calcularG0d lat delta dn).G0d_kWh = 0) ∧
    (0 ≤ (calcularG0d lat delta dn).omega_s ∧
      (calcularG0d lat delta dn).omega_s ≤ π) := by
  by_cases h1 : -1 ≤ -tan lat * tan delta ∧ -tan lat * tan delta ≤ 1
  · simp only [calcularG0d, if_pos h1]
    exact ⟨fun _ _ => by simp,
      fun hlt => absurd h1.1 (not_le.mpr hlt),
      fun hgt => absurd h1.2 (not_le.mpr hgt),
      arccos_nonneg _, arccos_le_pi _⟩
  · by_cases h2 : -tan lat * tan delta < -1
    · simp only [calcularG0d, if_neg h1, if_pos h2]
      exact ⟨fun ha hb => absurd ⟨ha, hb⟩ h1,
        fun _ => ⟨by simp, by simp⟩,
        fun hgt => absurd hgt (by linarith),
        pi_pos.le, le_refl π⟩
    · simp only [calcularG0d, if_neg h1, if_neg h2]
      refine ⟨fun ha hb => absurd ⟨ha, hb⟩ h1,
        fun hlt => absurd hlt h2,
        fun _ => ⟨by simp, by simp⟩,
        le_refl 0, pi_pos.le⟩

/-- Witness for C5: latitude/declination pairs driving each of the three
branches (`0, 0` for the standard case, `π/3, π/3` for polar day where the
argument is `-3`, and `π/3, -π/3` for polar night where it is `3`). -/
theorem claim5_g0d_branches_witness :
    (calcularG0d 0 0 1).omega_s = arccos (-tan 0 * tan 0) ∧
    ((calcularG0d (π / 3) (π / 3) 1).omega_s = π ∧
      (calcularG0d (π / 3) (π / 3) 1).G0d_kWh
        = FACTOR_G0D * ICS * (calcularG0d (π / 3) (π / 3) 1).E0
            * (π * sin (π / 3) * sin (π / 3)) / 1000) ∧
    ((calcularG0d (π / 3) (-(π / 3)) 1).omega_s = 0 ∧
      (calcularG0d (π / 3) (-(π / 3)) 1).G0d_kWh = 0) := by
  have h3 : -tan (π / 3) * tan (π / 3) = -3 := by
    rw [Real.tan_pi_div_three]
    rw [neg_mul, Real.mul_self_sqrt (by norm_num : (0 : ℝ) ≤ 3)]
  refine ⟨(claim5_g0d_branches 0 0 1).1 ?_ ?_,
    (claim5_g0d_branches (π / 3) (π / 3) 1).2.1 ?_,
    (claim5_g0d_branches (π / 3) (-(π / 3)) 1).2.2.1 ?_⟩
  · rw [Real.tan_zero]; norm_num
  · rw [Real.tan_zero]; norm_num
  · rw [h3]; norm_num
  · rw [Real.tan_neg, mul_neg, h3]
    norm_num

/-- C1: for a non-empty list of valid month samples, the tilt search scans
exactly the 19 candidate angles 0°, 5°, …, 90°; each candidate's annual
total is the day-count-weighted sum of the non-NaN monthly `Gi` values
divided by 1000; the recorded optimum maximizes this total over all
candidates and, because the comparison is strict `>`, it is strictly
better than every smaller candidate angle — so ties keep the smaller
angle.  (The hypothesis `hDd` is the pipeline invariant: diffuse
components produced by the horizontal splitter are non-negative.) -/
theorem claim1_tilt_search_argmax (lat : ℝ) (months : List MonthItem)
    (hne : months ≠ [])
    (hDd : ∀ it ∈ months, 0 < it.G0d_kWh → 0 ≤ it.Dd) :
    angulosCandidatos
      = [0, 5, 10, 15, 20, 25, 30, 35, 40, 45, 50, 55, 60, 65, 70, 75, 80, 85, 90] ∧
    (∀ betaG : ℕ, GiAnualMWh lat months betaG =
      (months.map fun it =>
        ((calcularRadiacionInclinada ((betaG : ℝ) / RAD_A_DEG) it lat).Gi.getD 0)
          * (it.diasEnMes : ℝ)).sum / 1000) ∧
    ∃ b, (generarTablaAnualOptima lat months).anguloOptimo = some b ∧
      b ∈ angulosCandidatos ∧
      (∀ beta ∈ angulosCandidatos,
        GiAnualMWh lat months beta ≤ GiAnualMWh lat months b) ∧
      (∀ beta ∈ angulosCandidatos, beta < b →
        GiAnualMWh lat months beta < GiAnualMWh lat months b) := by
  refine ⟨rfl, ?_, ?_⟩
  · intro betaG
    rw [GiAnualMWh, foldl_aporte_eq_sum, zero_add]
  · obtain ⟨b, hopt, _, hmem, hmax, hfirst⟩ := optimo_spec lat months hne hDd
    exact ⟨b, hopt, hmem, hmax, hfirst⟩

/-- Witness for C1 on a concrete eight-month list at latitude 0. -/
theorem claim1_tilt_search_argmax_witness :
    angulosCandidatos
      = [0, 5, 10, 15, 20, 25, 30, 35, 40, 45, 50, 55, 60, 65, 70, 75, 80, 85, 90] ∧
    (∀ betaG : ℕ, GiAnualMWh 0 mesesOcho betaG =
      (mesesOcho.map fun it =>
        ((calcularRadiacionInclinada ((betaG : ℝ) / RAD_A_DEG) it 0).Gi.getD 0)
          * (it.diasEnMes : ℝ)).sum / 1000) ∧
    ∃ b, (generarTablaAnualOptima 0 mesesOcho).anguloOptimo = some b ∧
      b ∈ angulosCandidatos ∧
      (∀ beta ∈ angulosCandidatos,
        GiAnualMWh 0 mesesOcho beta ≤ GiAnualMWh 0 mesesOcho b) ∧
      (∀ beta ∈ angulosCandidatos, beta < b →
        GiAnualMWh 0 mesesOcho beta < GiAnualMWh 0 mesesOcho b) := by
  refine claim1_tilt_search_argmax 0 mesesOcho (by simp [mesesOcho]) ?_
  intro it hit
  rw [mesesOcho] at hit
  rw [List.eq_of_mem_replicate hit]
  intro _
  norm_num

/-- C2 fails as stated: with only 8 valid months (fewer than the claimed
10-month minimum) the optimizer does not abort; it still returns a
non-null optimal angle, because the only guard in the code is
`resultadosMensualesGlobales.length === 0`. -/
theorem claim2_min_months_counterexample :
    mesesOcho.length = 8 ∧
    (∀ it ∈ mesesOcho, ∃ g, it.Gd_kWh = some g ∧ 0 < g ∧ 0 < it.G0d_kWh) ∧
    (generarTablaAnualOptima 0 mesesOcho).anguloOptimo ≠ none := by
  refine ⟨by simp [mesesOcho], ?_, ?_⟩
  · intro it hit
    rw [mesesOcho] at hit
    rw [List.eq_of_mem_replicate hit]
    exact ⟨5, rfl, by norm_num, by norm_num⟩
  · have hDd : ∀ it ∈ mesesOcho, 0 < it.G0d_kWh → 0 ≤ it.Dd := by
      intro it hit _
      rw [mesesOcho] at hit
      rw [List.eq_of_mem_replicate hit]
      norm_num
    obtain ⟨b, hb, _⟩ := optimo_spec 0 mesesOcho (by simp [mesesOcho]) hDd
    rw [hb]
    simp

/-- C2 amended: the only abort guard is the empty list of valid months —
with zero valid months the search returns the distinguished result (null
angle, `GiMinMensual = 0`); with any non-zero number of valid months
(in particular 8) the search runs and records a non-null angle. -/
theorem claim2_min_months_amended (lat : ℝ) (months : List MonthItem) :
    (months = [] →
      generarTablaAnualOptima lat months = ⟨none, ((0 : ℝ) : WithTop ℝ)⟩) ∧
    (months ≠ [] → (∀ it ∈ months, 0 < it.G0d_kWh → 0 ≤ it.Dd) →
      (generarTablaAnualOptima lat months).anguloOptimo ≠ none) := by
  constructor
  · rintro rfl
    rfl
  · intro hne hDd
    obtain ⟨b, hb, _⟩ := optimo_spec lat months hne hDd
    rw [hb]
    simp

/-- Witness for the amended C2: the empty list aborts, the eight-month
list does not. -/
theorem claim2_min_months_amended_witness :
    generarTablaAnualOptima 0 [] = ⟨none, ((0 : ℝ) : WithTop ℝ)⟩ ∧
    (generarTablaAnualOptima 0 mesesOcho).anguloOptimo ≠ none := by
  refine ⟨(claim2_min_months_amended 0 []).1 rfl,
    (claim2_min_months_amended 0 mesesOcho).2 (by simp [mesesOcho]) ?_⟩
  intro it hit _
  rw [mesesOcho] at hit
  rw [List.eq_of_mem_replicate hit]
  norm_num

/-- C10: with a non-empty month list the returned optimal angle is never
null (under the pipeline invariant on diffuse components); in particular
when every month has extraterrestrial irradiation 0 — so every monthly
`Gi` is NaN at every candidate — every candidate's annual total is 0, the
first candidate 0° is recorded as optimal, and the reported minimum
monthly irradiation is `⊤` (JavaScript `Infinity`, the minimum of an
empty collection). -/
theorem claim10_optimum_never_null (lat : ℝ) (months : List MonthItem)
    (hne : months ≠ []) :
    ((∀ it ∈ months, 0 < it.G0d_kWh → 0 ≤ it.Dd) →
      (generarTablaAnualOptima lat months).anguloOptimo ≠ none) ∧
    ((∀ it ∈ months, it.G0d_kWh = 0) →
      generarTablaAnualOptima lat months = ⟨some 0, ⊤⟩) := by
  constructor
  · intro hDd
    obtain ⟨b, hb, _⟩ := optimo_spec lat months hne hDd
    rw [hb]
    simp
  · intro hG0d
    have hnone : ∀ (betaRad : ℝ), ∀ it ∈ months,
        (calcularRadiacionInclinada betaRad it lat).Gi = none := by
      intro betaRad it hit
      refine gi_none_of_g0d_nonpos betaRad lat it ?_
      rw [hG0d it hit]
      norm_num
    have hf : ∀ betaG : ℕ, GiAnualMWh lat months betaG = 0 := by
      intro betaG
      rw [GiAnualMWh, foldl_aporte_none lat _ months (hnone _) 0]
      norm_num
    have hminT : GiMinAt lat months 0 = ⊤ := by
      rw [GiMinAt, GiMensualesAt]
      rw [List.filterMap_eq_nil_iff.mpr (hnone _)]
      rfl
    have hstep1 : pasoSeleccion (GiAnualMWh lat months) (-1, none) 0
        = (0, some 0) := by
      rw [pasoSeleccion, hf 0]
      norm_num
    have hstep2 : ∀ betaG : ℕ,
        pasoSeleccion (GiAnualMWh lat months) (0, some 0) betaG = (0, some 0) := by
      intro betaG
      rw [pasoSeleccion, hf betaG]
      norm_num
    have hsel : (seleccionOptimo (GiAnualMWh lat months)).2 = some 0 := by
      rw [seleccionOptimo, angulosCandidatos]
      simp only [List.foldl_cons, List.foldl_nil, hstep1, hstep2]
    obtain ⟨m0, rest, rfl⟩ := List.exists_cons_of_ne_nil hne
    simp only [generarTablaAnualOptima, hsel, hminT]

/-- Witness for C10 on a one-month list with zero extraterrestrial
irradiation. -/
theorem claim10_optimum_never_null_witness :
    (generarTablaAnualOptima 0 mesesG0dCero).anguloOptimo ≠ none ∧
    generarTablaAnualOptima 0 mesesG0dCero = ⟨some 0, ⊤⟩ := by
  have h := claim10_optimum_never_null 0 mesesG0dCero (by simp [mesesG0dCero])
  have hzero : ∀ it ∈ mesesG0dCero, it.G0d_kWh = 0 := by
    intro it hit
    rw [mesesG0dCero] at hit
    rw [List.mem_singleton] at hit
    rw [hit]
  refine ⟨h.1 ?_, h.2 hzero⟩
  intro it hit hpos
  rw [hzero it hit] at hpos
  norm_num at hpos

/-- Upper bound for the combined first and second harmonic of Cooper's
declination series, written over a point of the unit circle.  The key step
is an exact sum-of-squares certificate for the quartic
`(0.4001 - A)² - (1-c²)·B²` where `A, B` are the even and odd parts. -/
lemma h12_upper (c s : ℝ) (hcs : c ^ 2 + s ^ 2 = 1) :
    (0.006758 - 0.399912 * c - 0.013516 * c ^ 2)
      + s * (0.070257 + 0.001814 * c) ≤ 0.4001 := by
  have hc1 : -1 ≤ c := by nlinarith [sq_nonneg s, sq_nonneg (c + 1)]
  have hb : 0 < 0.4001 - (0.006758 - 0.399912 * c - 0.013516 * c ^ 2) := by
    nlinarith [sq_nonneg (c + 1)]
  have hkey : (0.4001 - (0.006758 - 0.399912 * c - 0.013516 * c ^ 2)) ^ 2
      - (s * (0.070257 + 0.001814 * c)) ^ 2
      = (29956376583 : ℝ) / 200000000000
          * (1 + (52391579902 : ℝ) / 49927294305 * c
              + (50200000 : ℝ) / 1426494123 * c ^ 2) ^ 2
        + (344412423871542731 : ℝ) / 16642431435000000000000
          * (c + (24855393148193650 : ℝ) / 344412423871542731 * c ^ 2) ^ 2
        + (8016256646685404784707 : ℝ) / 21525776491971420687500000000
          * (c ^ 2) ^ 2
        + (1 - c ^ 2 - s ^ 2) * (0.070257 + 0.001814 * c) ^ 2 := by
    ring
  have hzero : 1 - c ^ 2 - s ^ 2 = 0 := by linarith
  rw [hzero, zero_mul, add_zero] at hkey
  have hsq : (s * (0.070257 + 0.001814 * c)) ^ 2
      ≤ (0.4001 - (0.006758 - 0.399912 * c - 0.013516 * c ^ 2)) ^ 2 := by
    nlinarith [sq_nonneg (1 + (52391579902 : ℝ) / 49927294305 * c
        + (50200000 : ℝ) / 1426494123 * c ^ 2),
      sq_nonneg (c + (24855393148193650 : ℝ) / 344412423871542731 * c ^ 2),
      sq_nonneg (c ^ 2), hkey]
  by_contra hcon
  push_neg at hcon
  have hlt : 0.4001 - (0.006758 - 0.399912 * c - 0.013516 * c ^ 2)
      < s * (0.070257 + 0.001814 * c) := by linarith
  have := pow_lt_pow_left hlt hb.le (two_ne_zero)
  linarith

/-- Matching lower bound for the combined first and second harmonic. -/
lemma h12_lower (c s : ℝ) (hcs : c ^ 2 + s ^ 2 = 1) :
    -0.41398 ≤ (0.006758 - 0.399912 * c - 0.013516 * c ^ 2)
      + s * (0.070257 + 0.001814 * c) := by
  have hc2 : c ≤ 1 := by nlinarith [sq_nonneg s, sq_nonneg (c - 1)]
  have hcsq : c ^ 2 ≤ 1 := by nlinarith [sq_nonneg s]
  have hb : 0 < 0.41398 + (0.006758 - 0.399912 * c - 0.013516 * c ^ 2) := by
    nlinarith
  have hkey : (0.41398 + (0.006758 - 0.399912 * c - 0.013516 * c ^ 2)) ^ 2
      - (s * (0.070257 + 0.001814 * c)) ^ 2
      = (34416883719 : ℝ) / 200000000000
          * (1 + (-56128540418 : ℝ) / 57361472865 * c
              + (-1130600000 : ℝ) / 34416883719 * c ^ 2) ^ 2
        + (547752329914845131 : ℝ) / 19120490955000000000000
          * (c + (66703347989003350 : ℝ) / 1643256989744535393 * c ^ 2) ^ 2
        + (68929602543711200169563 : ℝ) / 308110685577100386187500000000
          * (c ^ 2) ^ 2
        + (1 - c ^ 2 - s ^ 2) * (0.070257 + 0.001814 * c) ^ 2 := by
    ring
  have hzero : 1 - c ^ 2 - s ^ 2 = 0 := by linarith
  rw [hzero, zero_mul, add_zero] at hkey
  have hsq : (s * (0.070257 + 0.001814 * c)) ^ 2
      ≤ (0.41398 + (0.006758 - 0.399912 * c - 0.013516 * c ^ 2)) ^ 2 := by
    nlinarith [sq_nonneg (1 + (-56128540418 : ℝ) / 57361472865 * c
        + (-1130600000 : ℝ) / 34416883719 * c ^ 2),
      sq_nonneg (c + (66703347989003350 : ℝ) / 1643256989744535393 * c ^ 2),
      sq_nonneg (c ^ 2), hkey]
  by_contra hcon
  push_neg at hcon
  have hlt : 0.41398 + (0.006758 - 0.399912 * c - 0.013516 * c ^ 2)
      < -(s * (0.070257 + 0.001814 * c)) := by linarith
  have hpow := pow_lt_pow_left hlt hb.le (two_ne_zero)
  rw [neg_pow] at hpow
  have heven : (-1 : ℝ) ^ 2 = 1 := by norm_num
  rw [heven, one_mul] at hpow
  linarith

/-- Cauchy–Schwarz bound for the third harmonic of Cooper's series. -/
lemma h3_bound (x y : ℝ) (hxy : x ^ 2 + y ^ 2 = 1) :
    -0.00308 ≤ -0.002697 * x + 0.00148 * y ∧
    -0.002697 * x + 0.00148 * y ≤ 0.00308 := by
  have hkey : (-0.002697 * x + 0.00148 * y) ^ 2
      + (0.00148 * x + 0.002697 * y) ^ 2
      = 0.000009464209 * (x ^ 2 + y ^ 2) := by ring
  rw [hxy, mul_one] at hkey
  have hsq : (-0.002697 * x + 0.00148 * y) ^ 2 ≤ 0.000009464209 := by
    nlinarith [sq_nonneg (0.00148 * x + 0.002697 * y)]
  constructor
  · nlinarith [sq_nonneg (-0.002697 * x + 0.00148 * y + 0.00308)]
  · nlinarith [sq_nonneg (-0.002697 * x + 0.00148 * y - 0.00308)]

/-- The Cooper declination produced by `calcularDelta` is strictly below
23.5° (`47π/360` radians) in absolute value, for every real day number. -/
lemma calcularDelta_abs_lt (dn : ℝ) : |calcularDelta dn| < 47 * π / 360 := by
  simp only [calcularDelta]
  rw [Real.cos_two_mul, Real.sin_two_mul]
  have hcs : cos (2 * π * ((dn - 1) / 365)) ^ 2
      + sin (2 * π * ((dn - 1) / 365)) ^ 2 = 1 :=
    Real.cos_sq_add_sin_sq _
  have hxy : cos (3 * (2 * π * ((dn - 1) / 365))) ^ 2
      + sin (3 * (2 * π * ((dn - 1) / 365))) ^ 2 = 1 :=
    Real.cos_sq_add_sin_sq _
  have h12u := h12_upper _ _ hcs
  have h12l := h12_lower _ _ hcs
  have h3 := h3_bound _ _ hxy
  have hpi := Real.pi_gt_d6
  rw [abs_lt]
  constructor
  · nlinarith [h12l, h3.1]
  · nlinarith [h12u, h3.2]

/-- On `(0, π)` the function `sin ω - ω·cos ω` is strictly positive. -/
lemma sin_sub_mul_cos_pos {w : ℝ} (h0 : 0 < w) (hpi : w < π) :
    0 < sin w - w * cos w := by
  rcases lt_or_le w (π / 2) with hlt | hge
  · have hcos : 0 < cos w := cos_pos_of_mem_Ioo ⟨by linarith, hlt⟩
    have htan := Real.lt_tan h0 hlt
    rw [Real.tan_eq_sin_div_cos] at htan
    have := (lt_div_iff hcos).mp htan
    linarith
  · have hcos : cos w ≤ 0 :=
      cos_nonpos_of_pi_div_two_le_of_le hge (by linarith [pi_pos])
    have hsin : 0 < sin w := sin_pos_of_pos_of_lt_pi h0 hpi
    nlinarith

/-- Core of C6: whenever `|φ| ≤ 133π/360` (66.5°) and `|δ| < 47π/360`
(23.5°), `calcularG0d` takes its standard branch and produces a sunset
hour angle strictly inside `(0, π)` and a strictly positive daily
irradiation. -/
lemma g0d_pos_of_abs_bounds (phi delta dn : ℝ)
    (hphi : |phi| ≤ 133 * π / 360) (hdelta : |delta| < 47 * π / 360) :
    0 < (calcularG0d phi delta dn).omega_s ∧
    (calcularG0d phi delta dn).omega_s < π ∧
    0 < (calcularG0d phi delta dn).G0d_kWh := by
  have hπ := Real.pi_pos
  obtain ⟨hp1, hp2⟩ := abs_le.mp hphi
  obtain ⟨hd1, hd2⟩ := abs_lt.mp hdelta
  have hcosφ : 0 < cos phi := cos_pos_of_mem_Ioo ⟨by linarith, by linarith⟩
  have hcosδ : 0 < cos delta := cos_pos_of_mem_Ioo ⟨by linarith, by linarith⟩
  have hcosadd : 0 < cos (phi + delta) :=
    cos_pos_of_mem_Ioo ⟨by linarith, by linarith⟩
  have hcossub : 0 < cos (phi - delta) :=
    cos_pos_of_mem_Ioo ⟨by linarith, by linarith⟩
  have hprodpos : 0 < cos phi * cos delta := mul_pos hcosφ hcosδ
  have hcsub : cos (phi - delta) = cos phi * cos delta + sin phi * sin delta :=
    Real.cos_sub phi delta
  have hcadd : cos (phi + delta) = cos phi * cos delta - sin phi * sin delta :=
    Real.cos_add phi delta
  have htanprod : -tan phi * tan delta
      = -(sin phi * sin delta) / (cos phi * cos delta) := by
    rw [Real.tan_eq_sin_div_cos, Real.tan_eq_sin_div_cos]
    field_simp
  have harg_lt : -tan phi * tan delta < 1 := by
    rw [htanprod]
    rw [div_lt_one hprodpos]
    linarith
  have harg_gt : -1 < -tan phi * tan delta := by
    rw [htanprod]
    rw [lt_div_iff hprodpos]
    linarith
  have hcond : -1 ≤ -tan phi * tan delta ∧ -tan phi * tan delta ≤ 1 :=
    ⟨harg_gt.le, harg_lt.le⟩
  have homega0 : 0 < arccos (-tan phi * tan delta) := arccos_pos.mpr harg_lt
  have homegapi : arccos (-tan phi * tan delta) < π := by
    refine lt_of_le_of_ne (arccos_le_pi _) ?_
    intro hcon
    exact absurd (arccos_eq_pi.mp hcon) (not_le.mpr harg_gt)
  have hcosω : cos (arccos (-tan phi * tan delta)) = -tan phi * tan delta :=
    cos_arccos harg_gt.le harg_lt.le
  have hprodeq : (-tan phi * tan delta) * (cos delta * cos phi)
      = -(sin delta * sin phi) := by
    rw [htanprod]
    field_simp
    ring
  have hterm : arccos (-tan phi * tan delta) * sin delta * sin phi
      + cos delta * cos phi * sin (arccos (-tan phi * tan delta))
      = cos delta * cos phi
          * (sin (arccos (-tan phi * tan delta))
            - arccos (-tan phi * tan delta)
              * cos (arccos (-tan phi * tan delta))) := by
    rw [hcosω]
    nlinarith [hprodeq]
  have hsinpos := sin_sub_mul_cos_pos homega0 homegapi
  have htermpos : 0 < arccos (-tan phi * tan delta) * sin delta * sin phi
      + cos delta * cos phi * sin (arccos (-tan phi * tan delta)) := by
    rw [hterm]
    exact mul_pos (mul_pos hcosδ hcosφ) hsinpos
  have hE0 : 0 < 1 + 0.033 * cos (2 * π * dn / 365) := by
    nlinarith [Real.neg_one_le_cos (2 * π * dn / 365)]
  have hfac : 0 < FACTOR_G0D * ICS := by
    rw [FACTOR_G0D, ICS]
    positivity
  simp only [calcularG0d]
  rw [if_pos hcond]
  refine ⟨homega0, homegapi, ?_⟩
  have : 0 < FACTOR_G0D * ICS * (1 + 0.033 * cos (2 * π * dn / 365))
      * (arccos (-tan phi * tan delta) * sin delta * sin phi
        + cos delta * cos phi * sin (arccos (-tan phi * tan delta))) / 1000 := by
    apply div_pos _ (by norm_num)
    exact mul_pos (mul_pos hfac hE0) htermpos
  exact this

/-- C6: for every latitude within ±66.5° (converted to radians as in
main.js, dividing by `RAD_A_DEG`) and every day of year in `[1, 365]`,
the declination from `calcularDelta` keeps `calcularG0d` in its standard
branch: the sunset hour angle is strictly between 0 and π and the
extraterrestrial daily irradiation is strictly positive. -/
theorem claim6_nonpolar_positive (latDeg dn : ℝ) (hlat : |latDeg| ≤ 66.5)
    (hdn1 : 1 ≤ dn) (hdn2 : dn ≤ 365) :
    0 < (calcularG0d (latDeg / RAD_A_DEG) (calcularDelta dn) dn).omega_s ∧
    (calcularG0d (latDeg / RAD_A_DEG) (calcularDelta dn) dn).omega_s < π ∧
    0 < (calcularG0d (latDeg / RAD_A_DEG) (calcularDelta dn) dn).G0d_kWh := by
  have hπ := Real.pi_pos
  have hrad : latDeg / RAD_A_DEG = latDeg * π / 180 := by
    rw [RAD_A_DEG]
    field_simp
  have hphi : |latDeg / RAD_A_DEG| ≤ 133 * π / 360 := by
    rw [hrad]
    rw [abs_div, abs_mul, abs_of_pos hπ, abs_of_pos (by norm_num : (0:ℝ) < 180)]
    rw [div_le_iff (by norm_num : (0:ℝ) < 180)]
    nlinarith [abs_nonneg latDeg]
  exact g0d_pos_of_abs_bounds (latDeg / RAD_A_DEG) (calcularDelta dn) dn hphi
    (calcularDelta_abs_lt dn)

/-- Witness for C6 at the equator on day 80. -/
theorem claim6_nonpolar_positive_witness :
    0 < (calcularG0d (0 / RAD_A_DEG) (calcularDelta 80) 80).omega_s ∧
    (calcularG0d (0 / RAD_A_DEG) (calcularDelta 80) 80).omega_s < π ∧
    0 < (calcularG0d (0 / RAD_A_DEG) (calcularDelta 80) 80).G0d_kWh := by
  refine claim6_nonpolar_positive 0 80 ?_ (by norm_num) (by norm_num)
  rw [abs_zero]
  norm_num

end

end SolarApp
